import Mathlib
/-!
Shallow embedding of the s3-bucket-scanner program (scanner variant,
`s3-bucket-scanner.go`).  Provider calls are modelled as predetermined
`Except`-valued responses; `log.Fatalf` (non-zero exit, no output file)
is modelled as the `Except.error` outcome of the whole run.
-/
namespace S3Scan
/-- Opaque snapshot of a provider response payload; the program never
interprets its contents, it only stores and serializes it. -/
abbrev Conf := String

/-- A Go `error` value; only its `Error()` message text is ever inspected
(by `strings.Contains`). -/
structure GoErr where
  msg : String
deriving DecidableEq, Repr

/-- `charsHavePref needle hay`: the char list `needle` is a prefix of `hay`. -/
def charsHavePref : List Char → List Char → Bool
  | [], _ => true
  | _ :: _, [] => false
  | n :: ns, h :: hs => n == h && charsHavePref ns hs

/-- `charsContain needle hay`: `needle` occurs as a contiguous run in `hay`. -/
def charsContain (needle : List Char) : List Char → Bool
  | [] => needle.isEmpty
  | h :: hs => charsHavePref needle (h :: hs) || charsContain needle hs

/-- Go `strings.Contains(s, sub)`. -/
def goStringsContains (s sub : String) : Bool :=
  charsContain sub.toList s.toList

/-- Helper for `goSplitComma`: accumulates the current (reversed) segment. -/
def splitCommaAux : List Char → List Char → List String
  | cur, [] => [String.mk cur.reverse]
  | cur, c :: cs =>
    if c == ',' then String.mk cur.reverse :: splitCommaAux [] cs
    else splitCommaAux (c :: cur) cs

/-- Go `strings.Split(s, ",")`.  Note `goSplitComma "" = [""]`. -/
def goSplitComma (s : String) : List String :=
  splitCommaAux [] s.toList

/-- The exclusion filter of the scanner:
`slices.Contains(strings.Split(os.Getenv("EXCLUDED_BUCKETS"), ","), name)`. -/
def isExcluded (env name : String) : Bool :=
  (goSplitComma env).contains name

/-- The predetermined responses of the S3 client for one bucket, one field
per API call issued by the scanner.  Multi-valued sub-resources have a
listing call (returning configuration IDs) and a per-ID fetch. -/
structure BucketResponses where
  GetBucketAccelerateConfiguration : Except GoErr Conf
  GetBucketAcl : Except GoErr Conf
  ListBucketAnalyticsConfigurations : Except GoErr (List String)
  GetBucketAnalyticsConfiguration : String → Except GoErr Conf
  GetBucketCors : Except GoErr Conf
  GetBucketEncryption : Except GoErr Conf
  ListBucketIntelligentTieringConfigurations : Except GoErr (List String)
  GetBucketIntelligentTieringConfiguration : String → Except GoErr Conf
  ListBucketInventoryConfigurations : Except GoErr (List String)
  GetBucketInventoryConfiguration : String → Except GoErr Conf
  GetBucketLifecycleConfiguration : Except GoErr Conf
  GetBucketLocation : Except GoErr Conf
  GetBucketLogging : Except GoErr Conf
  ListBucketMetricsConfigurations : Except GoErr (List String)
  GetBucketMetricsConfiguration : String → Except GoErr Conf
  GetBucketNotificationConfiguration : Except GoErr Conf
  GetBucketOwnershipControls : Except GoErr Conf
  GetBucketPolicy : Except GoErr Conf
  GetBucketPolicyStatus : Except GoErr Conf
  GetBucketReplication : Except GoErr Conf
  GetBucketRequestPayment : Except GoErr Conf
  GetBucketTagging : Except GoErr Conf
  GetBucketVersioning : Except GoErr Conf

/-- The `BucketInfo` struct of the source.  Pointer fields are `Option Conf`
(Go `nil` = `none`); slice fields are `List Conf` — in this program a
multi-valued field is non-empty exactly when `append` ran at least once,
so the empty list models the Go nil slice. -/
structure BucketInfo where
  Name : String
  AccelerateConfig : Option Conf
  ACL : Option Conf
  AnalyticsConfig : List Conf
  CORSConfig : Option Conf
  EncryptionConfig : Option Conf
  IntelligentTieringConfig : List Conf
  InventoryConfig : List Conf
  LifecycleConfig : Option Conf
  Location : Option Conf
  LoggingConfig : Option Conf
  MetricsConfig : List Conf
  NotificationConfig : Option Conf
  OwnershipControlsConfig : Option Conf
  Policy : Option Conf
  PolicyStatus : Option Conf
  ReplicationConfig : Option Conf
  RequestPaymentConfig : Option Conf
  TaggingConfig : Option Conf
  VersioningConfig : Option Conf
deriving DecidableEq, Repr

/-- One tolerated sub-resource step of the scanner:
`if err != nil && !strings.Contains(err.Error(), marker) { log.Fatalf ... }
else { field = resp }`.  On a marker error the SDK response is nil, so the
field is assigned `none`; on success it is assigned `some` the payload;
any other error is fatal. -/
def toleratedAssign (resp : Except GoErr Conf) (marker : String) :
    Except GoErr (Option Conf) :=
  match resp with
  | .ok c => .ok (some c)
  | .error e =>
    if goStringsContains e.msg marker then .ok none else .error e

/-- The per-ID fetch loop of a multi-valued sub-resource: fetch each listed
ID in order, appending results; any fetch error is fatal (`log.Fatalf`). -/
def fetchConfigs (get : String → Except GoErr Conf) :
    List String → Except GoErr (List Conf)
  | [] => .ok []
  | i :: ids => do
    let c ← get i
    let cs ← fetchConfigs get ids
    .ok (c :: cs)

/-- The body of the scanner's per-bucket loop: the 19 sub-resource call
sites in source order.  A `.error` outcome models `log.Fatalf` (process
terminates, nothing written). -/
def collectBucket (r : BucketResponses) (name : String) :
    Except GoErr BucketInfo := do
  let accel ← r.GetBucketAccelerateConfiguration
  let acl ← r.GetBucketAcl
  let aIds ← r.ListBucketAnalyticsConfigurations
  let aCfgs ← fetchConfigs r.GetBucketAnalyticsConfiguration aIds
  let cors ← toleratedAssign r.GetBucketCors "NoSuchCORSConfiguration"
  let enc ← r.GetBucketEncryption
  let itIds ← r.ListBucketIntelligentTieringConfigurations
  let itCfgs ← fetchConfigs r.GetBucketIntelligentTieringConfiguration itIds
  let invIds ← r.ListBucketInventoryConfigurations
  let invCfgs ← fetchConfigs r.GetBucketInventoryConfiguration invIds
  let lc ← toleratedAssign r.GetBucketLifecycleConfiguration "NoSuchLifecycleConfiguration"
  let loc ← r.GetBucketLocation
  let lg ← r.GetBucketLogging
  let mIds ← r.ListBucketMetricsConfigurations
  let mCfgs ← fetchConfigs r.GetBucketMetricsConfiguration mIds
  let ntf ← r.GetBucketNotificationConfiguration
  let own ← toleratedAssign r.GetBucketOwnershipControls "OwnershipControlsNotFoundError"
  let pol ← toleratedAssign r.GetBucketPolicy "NoSuchBucketPolicy"
  let polSt ← toleratedAssign r.GetBucketPolicyStatus "NoSuchBucketPolicy"
  let repl ← toleratedAssign r.GetBucketReplication "ReplicationConfigurationNotFoundError"
  let reqPay ← r.GetBucketRequestPayment
  let tagg ← toleratedAssign r.GetBucketTagging "NoSuchTagSet"
  let vers ← r.GetBucketVersioning
  .ok {
    Name := name
    AccelerateConfig := some accel
    ACL := some acl
    AnalyticsConfig := aCfgs
    CORSConfig := cors
    EncryptionConfig := some enc
    IntelligentTieringConfig := itCfgs
    InventoryConfig := invCfgs
    LifecycleConfig := lc
    Location := some loc
    LoggingConfig := some lg
    MetricsConfig := mCfgs
    NotificationConfig := some ntf
    OwnershipControlsConfig := own
    Policy := pol
    PolicyStatus := polSt
    ReplicationConfig := repl
    RequestPaymentConfig := some reqPay
    TaggingConfig := tagg
    VersioningConfig := some vers
  }

/-- The S3 client as seen by the scanner: the bucket listing plus, for each
bucket name, its per-bucket responses. -/
structure S3Client where
  ListBuckets : Except GoErr (List String)
  perBucket : String → BucketResponses

/-- The scanner's main loop over the listed buckets: excluded buckets are
skipped before any sub-resource call; each surviving bucket's record is
appended in listing order. -/
def scanBuckets (client : S3Client) (env : String) :
    List String → Except GoErr (List BucketInfo)
  | [] => .ok []
  | b :: bs =>
    if isExcluded env b then
      scanBuckets client env bs
    else do
      let info ← collectBucket (client.perBucket b) b
      let rest ← scanBuckets client env bs
      .ok (info :: rest)

/-- The ambient process inputs of a run: `config.LoadDefaultConfig`,
the S3 client, `os.Getenv("EXCLUDED_BUCKETS")`, and the outcome of
`os.Create("bucket_info.json")`. -/
structure World where
  loadConfigOk : Except GoErr Unit
  client : S3Client
  excludedBuckets : String
  createFileOk : Except GoErr Unit

/-- The whole program in source order: load config, list buckets, per-bucket
collection loop, create the output file, encode.  `.ok` carries the Report
(the encoder itself cannot fail in the model); `.error` models `log.Fatalf`
before any output is produced. -/
def runScanner (w : World) : Except GoErr (List BucketInfo) := do
  let _ ← w.loadConfigOk
  let buckets ← w.client.ListBuckets
  let infos ← scanBuckets w.client w.excludedBuckets buckets
  let _ ← w.createFileOk
  .ok infos

/-- A JSON value, as produced by `encoding/json` for the Report. -/
inductive Json where
  | null
  | str : String → Json
  | arr : List Json → Json
  | obj : List (String × Json) → Json
deriving Repr

/-- Field lookup in a JSON object. -/
def Json.getField : Json → String → Option Json
  | .obj fields, k => fields.lookup k
  | _, _ => none

/-- `encoding/json` on a pointer field: Go `nil` marshals as `null`. -/
def encodeOpt : Option Conf → Json
  | none => Json.null
  | some c => Json.str c

/-- `encoding/json` on a slice field of this program: the field is empty
exactly when it is the Go nil slice (no `append` ever ran), and a nil
slice marshals as `null`; a non-empty slice marshals as an array. -/
def encodeGoSlice : List Conf → Json
  | [] => Json.null
  | cs => Json.arr (cs.map Json.str)

/-- Marshalling one `BucketInfo` record: fields in struct order, the
`Name` field renamed by its `json:"name"` tag. -/
def encodeBucketInfo (b : BucketInfo) : Json :=
  Json.obj [
    ("name", Json.str b.Name),
    ("AccelerateConfig", encodeOpt b.AccelerateConfig),
    ("ACL", encodeOpt b.ACL),
    ("AnalyticsConfig", encodeGoSlice b.AnalyticsConfig),
    ("CORSConfig", encodeOpt b.CORSConfig),
    ("EncryptionConfig", encodeOpt b.EncryptionConfig),
    ("IntelligentTieringConfig", encodeGoSlice b.IntelligentTieringConfig),
    ("InventoryConfig", encodeGoSlice b.InventoryConfig),
    ("LifecycleConfig", encodeOpt b.LifecycleConfig),
    ("Location", encodeOpt b.Location),
    ("LoggingConfig", encodeOpt b.LoggingConfig),
    ("MetricsConfig", encodeGoSlice b.MetricsConfig),
    ("NotificationConfig", encodeOpt b.NotificationConfig),
    ("OwnershipControlsConfig", encodeOpt b.OwnershipControlsConfig),
    ("Policy", encodeOpt b.Policy),
    ("PolicyStatus", encodeOpt b.PolicyStatus),
    ("ReplicationConfig", encodeOpt b.ReplicationConfig),
    ("RequestPaymentConfig", encodeOpt b.RequestPaymentConfig),
    ("TaggingConfig", encodeOpt b.TaggingConfig),
    ("VersioningConfig", encodeOpt b.VersioningConfig)]

/-- Marshalling the Report: a JSON array of records in collection order. -/
def encodeReport (infos : List BucketInfo) : Json :=
  Json.arr (infos.map encodeBucketInfo)

/-- Unmarshalling a pointer field. -/
def decodeOpt : Json → Option (Option Conf)
  | Json.null => some none
  | Json.str s => some (some s)
  | _ => none

/-- Unmarshalling the elements of an encoded configuration array. -/
def decodeConfList : List Json → Option (List Conf)
  | [] => some []
  | Json.str s :: rest => (decodeConfList rest).map fun cs => s :: cs
  | _ => none

/-- Unmarshalling a slice field (`null` unmarshals into the nil slice). -/
def decodeGoSlice : Json → Option (List Conf)
  | Json.null => some []
  | Json.arr xs => decodeConfList xs
  | _ => none

/-- Unmarshalling a JSON string. -/
def decodeStr : Json → Option String
  | Json.str s => some s
  | _ => none

/-- Unmarshalling, fields 1-5 of a record (by field name, as
`json.Unmarshal` does). -/
def decodePartA (j : Json) :
    Option (String × Option Conf × Option Conf × List Conf × Option Conf) := do
  let f0 ← j.getField "name"
  let nm ← decodeStr f0
  let f1 ← j.getField "AccelerateConfig"
  let accel ← decodeOpt f1
  let f2 ← j.getField "ACL"
  let acl ← decodeOpt f2
  let f3 ← j.getField "AnalyticsConfig"
  let aCfgs ← decodeGoSlice f3
  let f4 ← j.getField "CORSConfig"
  let cors ← decodeOpt f4
  some (nm, accel, acl, aCfgs, cors)

/-- Unmarshalling, fields 6-10 of a record. -/
def decodePartB (j : Json) :
    Option (Option Conf × List Conf × List Conf × Option Conf × Option Conf) := do
  let f5 ← j.getField "EncryptionConfig"
  let enc ← decodeOpt f5
  let f6 ← j.getField "IntelligentTieringConfig"
  let itCfgs ← decodeGoSlice f6
  let f7 ← j.getField "InventoryConfig"
  let invCfgs ← decodeGoSlice f7
  let f8 ← j.getField "LifecycleConfig"
  let lc ← decodeOpt f8
  let f9 ← j.getField "Location"
  let loc ← decodeOpt f9
  some (enc, itCfgs, invCfgs, lc, loc)

/-- Unmarshalling, fields 11-15 of a record. -/
def decodePartC (j : Json) :
    Option (Option Conf × List Conf × Option Conf × Option Conf × Option Conf) := do
  let f10 ← j.getField "LoggingConfig"
  let lg ← decodeOpt f10
  let f11 ← j.getField "MetricsConfig"
  let mCfgs ← decodeGoSlice f11
  let f12 ← j.getField "NotificationConfig"
  let ntf ← decodeOpt f12
  let f13 ← j.getField "OwnershipControlsConfig"
  let own ← decodeOpt f13
  let f14 ← j.getField "Policy"
  let pol ← decodeOpt f14
  some (lg, mCfgs, ntf, own, pol)

/-- Unmarshalling, fields 16-20 of a record. -/
def decodePartD (j : Json) :
    Option (Option Conf × Option Conf × Option Conf × Option Conf × Option Conf) := do
  let f15 ← j.getField "PolicyStatus"
  let polSt ← decodeOpt f15
  let f16 ← j.getField "ReplicationConfig"
  let repl ← decodeOpt f16
  let f17 ← j.getField "RequestPaymentConfig"
  let reqPay ← decodeOpt f17
  let f18 ← j.getField "TaggingConfig"
  let tagg ← decodeOpt f18
  let f19 ← j.getField "VersioningConfig"
  let vers ← decodeOpt f19
  some (polSt, repl, reqPay, tagg, vers)

/-- Unmarshalling one record. -/
def decodeBucketInfo (j : Json) : Option BucketInfo := do
  let (nm, accel, acl, aCfgs, cors) ← decodePartA j
  let (enc, itCfgs, invCfgs, lc, loc) ← decodePartB j
  let (lg, mCfgs, ntf, own, pol) ← decodePartC j
  let (polSt, repl, reqPay, tagg, vers) ← decodePartD j
  some {
    Name := nm
    AccelerateConfig := accel
    ACL := acl
    AnalyticsConfig := aCfgs
    CORSConfig := cors
    EncryptionConfig := enc
    IntelligentTieringConfig := itCfgs
    InventoryConfig := invCfgs
    LifecycleConfig := lc
    Location := loc
    LoggingConfig := lg
    MetricsConfig := mCfgs
    NotificationConfig := ntf
    OwnershipControlsConfig := own
    Policy := pol
    PolicyStatus := polSt
    ReplicationConfig := repl
    RequestPaymentConfig := reqPay
    TaggingConfig := tagg
    VersioningConfig := vers
  }

/-- Unmarshalling the elements of the Report array. -/
def decodeRecordList : List Json → Option (List BucketInfo)
  | [] => some []
  | j :: rest => do
    let b ← decodeBucketInfo j
    let bs ← decodeRecordList rest
    some (b :: bs)

/-- Unmarshalling the Report. -/
def decodeReport : Json → Option (List BucketInfo)
  | Json.arr xs => decodeRecordList xs
  | _ => none

mutual

/-- Rendering a JSON value to output text (the byte-level artifact). -/
def renderJson : Json → String
  | Json.null => "null"
  | Json.str s => "\"" ++ s ++ "\""
  | Json.arr xs => "[" ++ renderArr xs ++ "]"
  | Json.obj fs => "\x7b" ++ renderObj fs ++ "\x7d"

/-- Rendering array elements, comma-separated. -/
def renderArr : List Json → String
  | [] => ""
  | [x] => renderJson x
  | x :: y :: xs => renderJson x ++ "," ++ renderArr (y :: xs)

/-- Rendering object fields, comma-separated. -/
def renderObj : List (String × Json) → String
  | [] => ""
  | [(k, v)] => "\"" ++ k ++ "\":" ++ renderJson v
  | (k, v) :: f :: fs => "\"" ++ k ++ "\":" ++ renderJson v ++ "," ++ renderObj (f :: fs)

end

/-- The full run down to the bytes written to `bucket_info.json`:
`.ok` carries the file's rendered contents. -/
def runScannerOutput (w : World) : Except GoErr String :=
  (runScanner w).map fun infos => renderJson (encodeReport infos)

/-- A fixture client response set: every call succeeds, every multi-valued
listing is empty. -/
def okResp : BucketResponses where
  GetBucketAccelerateConfiguration := Except.ok "accelerate"
  GetBucketAcl := Except.ok "acl"
  ListBucketAnalyticsConfigurations := Except.ok []
  GetBucketAnalyticsConfiguration := fun i => Except.ok ("analytics-" ++ i)
  GetBucketCors := Except.ok "cors"
  GetBucketEncryption := Except.ok "encryption"
  ListBucketIntelligentTieringConfigurations := Except.ok []
  GetBucketIntelligentTieringConfiguration := fun i => Except.ok ("tiering-" ++ i)
  ListBucketInventoryConfigurations := Except.ok []
  GetBucketInventoryConfiguration := fun i => Except.ok ("inventory-" ++ i)
  GetBucketLifecycleConfiguration := Except.ok "lifecycle"
  GetBucketLocation := Except.ok "location"
  GetBucketLogging := Except.ok "logging"
  ListBucketMetricsConfigurations := Except.ok []
  GetBucketMetricsConfiguration := fun i => Except.ok ("metrics-" ++ i)
  GetBucketNotificationConfiguration := Except.ok "notifications"
  GetBucketOwnershipControls := Except.ok "ownership"
  GetBucketPolicy := Except.ok "policy"
  GetBucketPolicyStatus := Except.ok "policy-status"
  GetBucketReplication := Except.ok "replication"
  GetBucketRequestPayment := Except.ok "request-payment"
  GetBucketTagging := Except.ok "tagging"
  GetBucketVersioning := Except.ok "versioning"

/-- The record collected from `okResp` for a given bucket name. -/
def okInfo (name : String) : BucketInfo where
  Name := name
  AccelerateConfig := some "accelerate"
  ACL := some "acl"
  AnalyticsConfig := []
  CORSConfig := some "cors"
  EncryptionConfig := some "encryption"
  IntelligentTieringConfig := []
  InventoryConfig := []
  LifecycleConfig := some "lifecycle"
  Location := some "location"
  LoggingConfig := some "logging"
  MetricsConfig := []
  NotificationConfig := some "notifications"
  OwnershipControlsConfig := some "ownership"
  Policy := some "policy"
  PolicyStatus := some "policy-status"
  ReplicationConfig := some "replication"
  RequestPaymentConfig := some "request-payment"
  TaggingConfig := some "tagging"
  VersioningConfig := some "versioning"

/-- A fixture world: one bucket named a, no exclusions, all calls succeed. -/
def cw1 : World where
  loadConfigOk := Except.ok ()
  client := { ListBuckets := Except.ok ["a"], perBucket := fun _ => okResp }
  excludedBuckets := ""
  createFileOk := Except.ok ()

/-- A fixture response set in which every tolerated sub-resource reports
its provider-specific absence marker and every other call succeeds. -/
def tolErrResp : BucketResponses :=
  { okResp with
    GetBucketCors := Except.error ⟨"NoSuchCORSConfiguration"⟩
    GetBucketLifecycleConfiguration := Except.error ⟨"NoSuchLifecycleConfiguration"⟩
    GetBucketOwnershipControls := Except.error ⟨"OwnershipControlsNotFoundError"⟩
    GetBucketPolicy := Except.error ⟨"NoSuchBucketPolicy"⟩
    GetBucketPolicyStatus := Except.error ⟨"NoSuchBucketPolicy"⟩
    GetBucketReplication := Except.error ⟨"ReplicationConfigurationNotFoundError"⟩
    GetBucketTagging := Except.error ⟨"NoSuchTagSet"⟩ }

/-- A fixture response set whose ACL call fails with a genuine error. -/
def aclErrResp : BucketResponses :=
  { okResp with GetBucketAcl := Except.error ⟨"AccessDenied"⟩ }

/-- A fixture world over one bucket whose ACL call fails. -/
def cwAcl : World where
  loadConfigOk := Except.ok ()
  client := { ListBuckets := Except.ok ["a"], perBucket := fun _ => aclErrResp }
  excludedBuckets := ""
  createFileOk := Except.ok ()

/-- A fixture response set with non-empty multi-valued listings. -/
def multiResp : BucketResponses :=
  { okResp with
    ListBucketAnalyticsConfigurations := Except.ok ["a1", "a2"]
    ListBucketIntelligentTieringConfigurations := Except.ok ["t1"]
    ListBucketInventoryConfigurations := Except.ok ["inv1", "inv2"]
    ListBucketMetricsConfigurations := Except.ok ["m1", "m2", "m3"] }

/-- The record collected from `multiResp`. -/
def multiInfo : BucketInfo :=
  { okInfo "w4" with
    AnalyticsConfig := ["analytics-a1", "analytics-a2"]
    IntelligentTieringConfig := ["tiering-t1"]
    InventoryConfig := ["inventory-inv1", "inventory-inv2"]
    MetricsConfig := ["metrics-m1", "metrics-m2", "metrics-m3"] }

/-- A fixture world over buckets a, b, c with exclusion list b. -/
def cw5 : World where
  loadConfigOk := Except.ok ()
  client := { ListBuckets := Except.ok ["a", "b", "c"], perBucket := fun _ => okResp }
  excludedBuckets := "b"
  createFileOk := Except.ok ()

/-- A fixture world with an empty exclusion value whose listing contains the
empty bucket name. -/
def cw6 : World where
  loadConfigOk := Except.ok ()
  client := { ListBuckets := Except.ok [""], perBucket := fun _ => okResp }
  excludedBuckets := ""
  createFileOk := Except.ok ()

/-- A fixture world whose bucket-listing call fails. -/
def cwList : World where
  loadConfigOk := Except.ok ()
  client := { ListBuckets := Except.error ⟨"AccessDenied: ListBuckets"⟩,
              perBucket := fun _ => okResp }
  excludedBuckets := ""
  createFileOk := Except.ok ()

/-- A fixture response set whose policy-status call fails with an
operational error message that merely contains the policy marker. -/
def psErrResp : BucketResponses :=
  { okResp with GetBucketPolicyStatus :=
      Except.error ⟨"https response error StatusCode 404: NoSuchBucketPolicy: no policy exists"⟩ }

/-- The record collected from `psErrResp`. -/
def psInfo : BucketInfo :=
  { okInfo "w10" with PolicyStatus := none }
theorem okBind {α β : Type} (a : α) (f : α → Except GoErr β) :
    (Except.ok a >>= f : Except GoErr β) = f a := rfl

theorem errBind {α β : Type} (e : GoErr) (f : α → Except GoErr β) :
    (Except.error e >>= f : Except GoErr β) = Except.error e := rfl

theorem exceptBind_ok {α β : Type} {x : Except GoErr α} {f : α → Except GoErr β}
    {b : β} (h : (x >>= f) = Except.ok b) : ∃ a, x = Except.ok a ∧ f a = Except.ok b := by
  cases x with
  | error e => simp [errBind] at h
  | ok a => exact ⟨a, rfl, by simpa [okBind] using h⟩

theorem toleratedAssign_ok (c : Conf) (marker : String) :
    toleratedAssign (Except.ok c) marker = Except.ok (some c) := rfl

theorem toleratedAssign_marker {e : GoErr} {marker : String}
    (h : goStringsContains e.msg marker = true) :
    toleratedAssign (Except.error e) marker = Except.ok none := by
  simp [toleratedAssign, h]

theorem toleratedAssign_fatal {e : GoErr} {marker : String}
    (h : goStringsContains e.msg marker = false) :
    toleratedAssign (Except.error e) marker = Except.error e := by
  simp [toleratedAssign, h]

theorem toleratedAssign_ok_inv {resp : Except GoErr Conf} {marker : String}
    {o : Option Conf} (h : toleratedAssign resp marker = Except.ok o) :
    (∃ c, resp = Except.ok c ∧ o = some c) ∨
      (∃ e, resp = Except.error e ∧ goStringsContains e.msg marker = true ∧ o = none) := by
  cases resp with
  | ok c =>
    left
    refine ⟨c, rfl, ?_⟩
    simp [toleratedAssign] at h
    exact h.symm
  | error e =>
    right
    by_cases hm : goStringsContains e.msg marker = true
    · refine ⟨e, rfl, hm, ?_⟩
      rw [toleratedAssign_marker hm] at h
      exact (Except.ok.injEq _ _ ▸ h).symm
    · rw [toleratedAssign_fatal (Bool.not_eq_true _ ▸ hm)] at h
      exact absurd h (by simp)

theorem fetchConfigs_map {get : String → Except GoErr Conf} {f : String → Conf}
    {ids : List String} (h : ∀ i ∈ ids, get i = Except.ok (f i)) :
    fetchConfigs get ids = Except.ok (ids.map f) := by
  induction ids with
  | nil => rfl
  | cons i rest ih =>
    have hi : get i = Except.ok (f i) := h i (List.mem_cons_self i rest)
    have hrest : fetchConfigs get rest = Except.ok (rest.map f) :=
      ih fun j hj => h j (List.mem_cons_of_mem i hj)
    simp [fetchConfigs, hi, hrest, okBind]

theorem fetchConfigs_ok_inv {get : String → Except GoErr Conf} {ids : List String}
    {cs : List Conf} (h : fetchConfigs get ids = Except.ok cs) :
    cs.length = ids.length ∧ ∀ i ∈ ids, ∃ c, get i = Except.ok c := by
  induction ids generalizing cs with
  | nil =>
    simp [fetchConfigs] at h
    subst h
    exact ⟨rfl, by simp⟩
  | cons i rest ih =>
    simp only [fetchConfigs] at h
    obtain ⟨c, hc, h⟩ := exceptBind_ok h
    obtain ⟨cs', hcs', h⟩ := exceptBind_ok h
    obtain ⟨hlen, hall⟩ := ih hcs'
    have : c :: cs' = cs := by simpa [okBind] using h
    subst this
    refine ⟨by simp [hlen], ?_⟩
    intro j hj
    rcases List.mem_cons.mp hj with hj | hj
    · exact ⟨c, hj ▸ hc⟩
    · exact hall j hj

theorem collectBucket_eq (r : BucketResponses) (name : String)
    (accel acl enc loc lg ntf reqPay vers : Conf)
    (aIds itIds invIds mIds : List String)
    (aCfgs itCfgs invCfgs mCfgs : List Conf)
    (cors lc own pol polSt repl tagg : Option Conf)
    (e1 : r.GetBucketAccelerateConfiguration = Except.ok accel)
    (e2 : r.GetBucketAcl = Except.ok acl)
    (e3 : r.ListBucketAnalyticsConfigurations = Except.ok aIds)
    (e4 : fetchConfigs r.GetBucketAnalyticsConfiguration aIds = Except.ok aCfgs)
    (e5 : toleratedAssign r.GetBucketCors "NoSuchCORSConfiguration" = Except.ok cors)
    (e6 : r.GetBucketEncryption = Except.ok enc)
    (e7 : r.ListBucketIntelligentTieringConfigurations = Except.ok itIds)
    (e8 : fetchConfigs r.GetBucketIntelligentTieringConfiguration itIds = Except.ok itCfgs)
    (e9 : r.ListBucketInventoryConfigurations = Except.ok invIds)
    (e10 : fetchConfigs r.GetBucketInventoryConfiguration invIds = Except.ok invCfgs)
    (e11 : toleratedAssign r.GetBucketLifecycleConfiguration "NoSuchLifecycleConfiguration" = Except.ok lc)
    (e12 : r.GetBucketLocation = Except.ok loc)
    (e13 : r.GetBucketLogging = Except.ok lg)
    (e14 : r.ListBucketMetricsConfigurations = Except.ok mIds)
    (e15 : fetchConfigs r.GetBucketMetricsConfiguration mIds = Except.ok mCfgs)
    (e16 : r.GetBucketNotificationConfiguration = Except.ok ntf)
    (e17 : toleratedAssign r.GetBucketOwnershipControls "OwnershipControlsNotFoundError" = Except.ok own)
    (e18 : toleratedAssign r.GetBucketPolicy "NoSuchBucketPolicy" = Except.ok pol)
    (e19 : toleratedAssign r.GetBucketPolicyStatus "NoSuchBucketPolicy" = Except.ok polSt)
    (e20 : toleratedAssign r.GetBucketReplication "ReplicationConfigurationNotFoundError" = Except.ok repl)
    (e21 : r.GetBucketRequestPayment = Except.ok reqPay)
    (e22 : toleratedAssign r.GetBucketTagging "NoSuchTagSet" = Except.ok tagg)
    (e23 : r.GetBucketVersioning = Except.ok vers) :
    collectBucket r name = Except.ok {
      Name := name
      AccelerateConfig := some accel
      ACL := some acl
      AnalyticsConfig := aCfgs
      CORSConfig := cors
      EncryptionConfig := some enc
      IntelligentTieringConfig := itCfgs
      InventoryConfig := invCfgs
      LifecycleConfig := lc
      Location := some loc
      LoggingConfig := some lg
      MetricsConfig := mCfgs
      NotificationConfig := some ntf
      OwnershipControlsConfig := own
      Policy := pol
      PolicyStatus := polSt
      ReplicationConfig := repl
      RequestPaymentConfig := some reqPay
      TaggingConfig := tagg
      VersioningConfig := some vers
    } := by
  simp only [collectBucket, e1, e2, e3, e4, e5, e6, e7, e8, e9, e10, e11, e12,
    e13, e14, e15, e16, e17, e18, e19, e20, e21, e22, e23, okBind]

theorem collectBucket_ok_inv {r : BucketResponses} {name : String} {info : BucketInfo}
    (h : collectBucket r name = Except.ok info) :
    info.Name = name ∧
    (∃ a, r.GetBucketAccelerateConfiguration = Except.ok a ∧ info.AccelerateConfig = some a) ∧
    (∃ a, r.GetBucketAcl = Except.ok a ∧ info.ACL = some a) ∧
    (∃ ids, r.ListBucketAnalyticsConfigurations = Except.ok ids ∧
      fetchConfigs r.GetBucketAnalyticsConfiguration ids = Except.ok info.AnalyticsConfig) ∧
    toleratedAssign r.GetBucketCors "NoSuchCORSConfiguration" = Except.ok info.CORSConfig ∧
    (∃ a, r.GetBucketEncryption = Except.ok a ∧ info.EncryptionConfig = some a) ∧
    (∃ ids, r.ListBucketIntelligentTieringConfigurations = Except.ok ids ∧
      fetchConfigs r.GetBucketIntelligentTieringConfiguration ids = Except.ok info.IntelligentTieringConfig) ∧
    (∃ ids, r.ListBucketInventoryConfigurations = Except.ok ids ∧
      fetchConfigs r.GetBucketInventoryConfiguration ids = Except.ok info.InventoryConfig) ∧
    toleratedAssign r.GetBucketLifecycleConfiguration "NoSuchLifecycleConfiguration" = Except.ok info.LifecycleConfig ∧
    (∃ a, r.GetBucketLocation = Except.ok a ∧ info.Location = some a) ∧
    (∃ a, r.GetBucketLogging = Except.ok a ∧ info.LoggingConfig = some a) ∧
    (∃ ids, r.ListBucketMetricsConfigurations = Except.ok ids ∧
      fetchConfigs r.GetBucketMetricsConfiguration ids = Except.ok info.MetricsConfig) ∧
    (∃ a, r.GetBucketNotificationConfiguration = Except.ok a ∧ info.NotificationConfig = some a) ∧
    toleratedAssign r.GetBucketOwnershipControls "OwnershipControlsNotFoundError" = Except.ok info.OwnershipControlsConfig ∧
    toleratedAssign r.GetBucketPolicy "NoSuchBucketPolicy" = Except.ok info.Policy ∧
    toleratedAssign r.GetBucketPolicyStatus "NoSuchBucketPolicy" = Except.ok info.PolicyStatus ∧
    toleratedAssign r.GetBucketReplication "ReplicationConfigurationNotFoundError" = Except.ok info.ReplicationConfig ∧
    (∃ a, r.GetBucketRequestPayment = Except.ok a ∧ info.RequestPaymentConfig = some a) ∧
    toleratedAssign r.GetBucketTagging "NoSuchTagSet" = Except.ok info.TaggingConfig ∧
    (∃ a, r.GetBucketVersioning = Except.ok a ∧ info.VersioningConfig = some a) := by
  rw [collectBucket] at h
  obtain ⟨accel, hE1, h⟩ := exceptBind_ok h
  obtain ⟨acl, hE2, h⟩ := exceptBind_ok h
  obtain ⟨aIds, hE3, h⟩ := exceptBind_ok h
  obtain ⟨aCfgs, hE4, h⟩ := exceptBind_ok h
  obtain ⟨cors, hE5, h⟩ := exceptBind_ok h
  obtain ⟨enc, hE6, h⟩ := exceptBind_ok h
  obtain ⟨itIds, hE7, h⟩ := exceptBind_ok h
  obtain ⟨itCfgs, hE8, h⟩ := exceptBind_ok h
  obtain ⟨invIds, hE9, h⟩ := exceptBind_ok h
  obtain ⟨invCfgs, hE10, h⟩ := exceptBind_ok h
  obtain ⟨lc, hE11, h⟩ := exceptBind_ok h
  obtain ⟨loc, hE12, h⟩ := exceptBind_ok h
  obtain ⟨lg, hE13, h⟩ := exceptBind_ok h
  obtain ⟨mIds, hE14, h⟩ := exceptBind_ok h
  obtain ⟨mCfgs, hE15, h⟩ := exceptBind_ok h
  obtain ⟨ntf, hE16, h⟩ := exceptBind_ok h
  obtain ⟨own, hE17, h⟩ := exceptBind_ok h
  obtain ⟨pol, hE18, h⟩ := exceptBind_ok h
  obtain ⟨polSt, hE19, h⟩ := exceptBind_ok h
  obtain ⟨repl, hE20, h⟩ := exceptBind_ok h
  obtain ⟨reqPay, hE21, h⟩ := exceptBind_ok h
  obtain ⟨tagg, hE22, h⟩ := exceptBind_ok h
  obtain ⟨vers, hE23, h⟩ := exceptBind_ok h
  have hinfo := (Except.ok.injEq _ _ ▸ h)
  subst hinfo
  exact ⟨rfl, ⟨accel, hE1, rfl⟩, ⟨acl, hE2, rfl⟩, ⟨aIds, hE3, hE4⟩, hE5,
    ⟨enc, hE6, rfl⟩, ⟨itIds, hE7, hE8⟩, ⟨invIds, hE9, hE10⟩, hE11,
    ⟨loc, hE12, rfl⟩, ⟨lg, hE13, rfl⟩, ⟨mIds, hE14, hE15⟩, ⟨ntf, hE16, rfl⟩,
    hE17, hE18, hE19, hE20, ⟨reqPay, hE21, rfl⟩, hE22, ⟨vers, hE23, rfl⟩⟩

theorem collectBucket_name {r : BucketResponses} {name : String} {info : BucketInfo}
    (h : collectBucket r name = Except.ok info) : info.Name = name :=
  (collectBucket_ok_inv h).1

theorem scanBuckets_ok_of (c : S3Client) (env : String) (bs : List String)
    (hcol : ∀ b ∈ bs, isExcluded env b = false →
      ∃ i, collectBucket (c.perBucket b) b = Except.ok i) :
    ∃ infos, scanBuckets c env bs = Except.ok infos ∧
      infos.map BucketInfo.Name = bs.filter fun b => !(isExcluded env b) := by
  induction bs with
  | nil => exact ⟨[], rfl, rfl⟩
  | cons b rest ih =>
    obtain ⟨infos, hscan, hnames⟩ :=
      ih fun x hx hex => hcol x (List.mem_cons_of_mem b hx) hex
    cases hx : isExcluded env b with
    | true =>
      refine ⟨infos, ?_, ?_⟩
      · simp [scanBuckets, hx, hscan]
      · simp [List.filter, hx, hnames]
    | false =>
      obtain ⟨i, hi⟩ := hcol b (List.mem_cons_self b rest) hx
      refine ⟨i :: infos, ?_, ?_⟩
      · simp [scanBuckets, hx, hi, hscan, okBind]
      · simp [List.filter, hx, hnames, collectBucket_name hi]

theorem scanBuckets_err_of_mem (c : S3Client) (env : String) (bs : List String)
    (b : String) (hmem : b ∈ bs) (hex : isExcluded env b = false)
    (hfail : ∀ i, collectBucket (c.perBucket b) b ≠ Except.ok i) :
    ∃ e, scanBuckets c env bs = Except.error e := by
  induction bs with
  | nil => cases hmem
  | cons hd rest ih =>
    by_cases hhd : hd = b
    · subst hhd
      cases hcol : collectBucket (c.perBucket hd) hd with
      | error e => exact ⟨e, by simp [scanBuckets, hex, hcol, errBind]⟩
      | ok i => exact absurd hcol (hfail i)
    · have hmem' : b ∈ rest := by
        rcases List.mem_cons.mp hmem with h | h
        · exact absurd h.symm hhd
        · exact h
      obtain ⟨e, he⟩ := ih hmem'
      cases hx : isExcluded env hd with
      | true => exact ⟨e, by simp [scanBuckets, hx, he]⟩
      | false =>
        cases hcol : collectBucket (c.perBucket hd) hd with
        | error e2 => exact ⟨e2, by simp [scanBuckets, hx, hcol, errBind]⟩
        | ok i => exact ⟨e, by simp [scanBuckets, hx, hcol, he, okBind, errBind]⟩

theorem scanBuckets_insensitive (c c2 : S3Client) (env : String) (bs : List String)
    (h : ∀ b ∈ bs, isExcluded env b = false → c2.perBucket b = c.perBucket b) :
    scanBuckets c2 env bs = scanBuckets c env bs := by
  induction bs with
  | nil => rfl
  | cons b rest ih =>
    have ih' := ih fun x hx hex => h x (List.mem_cons_of_mem b hx) hex
    cases hx : isExcluded env b with
    | true => simp [scanBuckets, hx, ih']
    | false =>
      have hb := h b (List.mem_cons_self b rest) hx
      simp [scanBuckets, hx, hb, ih']

theorem runScanner_eq (w : World) (bs : List String) (infos : List BucketInfo)
    (h1 : w.loadConfigOk = Except.ok ())
    (h2 : w.client.ListBuckets = Except.ok bs)
    (h3 : scanBuckets w.client w.excludedBuckets bs = Except.ok infos)
    (h4 : w.createFileOk = Except.ok ()) :
    runScanner w = Except.ok infos := by
  simp [runScanner, h1, h2, h3, h4, okBind]

theorem runScanner_ok_inv {w : World} {infos : List BucketInfo}
    (h : runScanner w = Except.ok infos) :
    w.loadConfigOk = Except.ok () ∧
    ∃ bs, w.client.ListBuckets = Except.ok bs ∧
      scanBuckets w.client w.excludedBuckets bs = Except.ok infos ∧
      w.createFileOk = Except.ok () := by
  rw [runScanner] at h
  obtain ⟨u, hu, h⟩ := exceptBind_ok h
  obtain ⟨bs, hbs, h⟩ := exceptBind_ok h
  obtain ⟨infos2, hscan, h⟩ := exceptBind_ok h
  obtain ⟨u2, hu2, h⟩ := exceptBind_ok h
  cases u
  cases u2
  have : infos2 = infos := by simpa using h
  subst this
  exact ⟨hu, bs, hbs, hscan, hu2⟩

theorem decodeOpt_encodeOpt (o : Option Conf) : decodeOpt (encodeOpt o) = some o := by
  cases o <;> rfl

theorem decodeConfList_map (cs : List Conf) :
    decodeConfList (cs.map Json.str) = some cs := by
  induction cs with
  | nil => rfl
  | cons c rest ih => simp [decodeConfList, ih]

theorem decodeGoSlice_encodeGoSlice (l : List Conf) :
    decodeGoSlice (encodeGoSlice l) = some l := by
  match l with
  | [] => rfl
  | c :: cs =>
    simp only [encodeGoSlice, decodeGoSlice]
    exact decodeConfList_map (c :: cs)

theorem getField_encodeBucketInfo_name (b : BucketInfo) :
    (encodeBucketInfo b).getField "name" = some (Json.str b.Name) := by
  simp [encodeBucketInfo, Json.getField, List.lookup]

theorem decodePartA_encode (b : BucketInfo) :
    decodePartA (encodeBucketInfo b) =
      some (b.Name, b.AccelerateConfig, b.ACL, b.AnalyticsConfig, b.CORSConfig) := by
  simp [decodePartA, encodeBucketInfo, Json.getField, List.lookup, decodeStr,
    decodeOpt_encodeOpt, decodeGoSlice_encodeGoSlice]

theorem decodePartB_encode (b : BucketInfo) :
    decodePartB (encodeBucketInfo b) =
      some (b.EncryptionConfig, b.IntelligentTieringConfig, b.InventoryConfig,
        b.LifecycleConfig, b.Location) := by
  simp [decodePartB, encodeBucketInfo, Json.getField, List.lookup, decodeStr,
    decodeOpt_encodeOpt, decodeGoSlice_encodeGoSlice]

theorem decodePartC_encode (b : BucketInfo) :
    decodePartC (encodeBucketInfo b) =
      some (b.LoggingConfig, b.MetricsConfig, b.NotificationConfig,
        b.OwnershipControlsConfig, b.Policy) := by
  simp [decodePartC, encodeBucketInfo, Json.getField, List.lookup, decodeStr,
    decodeOpt_encodeOpt, decodeGoSlice_encodeGoSlice]

theorem decodePartD_encode (b : BucketInfo) :
    decodePartD (encodeBucketInfo b) =
      some (b.PolicyStatus, b.ReplicationConfig, b.RequestPaymentConfig,
        b.TaggingConfig, b.VersioningConfig) := by
  simp [decodePartD, encodeBucketInfo, Json.getField, List.lookup, decodeStr,
    decodeOpt_encodeOpt, decodeGoSlice_encodeGoSlice]

theorem decodeBucketInfo_encodeBucketInfo (b : BucketInfo) :
    decodeBucketInfo (encodeBucketInfo b) = some b := by
  simp [decodeBucketInfo, decodePartA_encode, decodePartB_encode,
    decodePartC_encode, decodePartD_encode]

theorem decodeRecordList_map (infos : List BucketInfo) :
    decodeRecordList (infos.map encodeBucketInfo) = some infos := by
  induction infos with
  | nil => rfl
  | cons b rest ih =>
    simp [decodeRecordList, decodeBucketInfo_encodeBucketInfo, ih]

theorem charsHavePref_append (n rest : List Char) :
    charsHavePref n (n ++ rest) = true := by
  induction n with
  | nil => rfl
  | cons a as ih => simp [charsHavePref, ih]

theorem charsContain_append (pre n post : List Char) :
    charsContain n (pre ++ (n ++ post)) = true := by
  induction pre with
  | nil =>
    cases n with
    | nil =>
      cases post with
      | nil => rfl
      | cons p ps => simp [charsContain, charsHavePref]
    | cons a as =>
      simp only [List.nil_append, List.cons_append, charsContain]
      have : charsHavePref (a :: as) (a :: (as ++ post)) = true := by
        simpa using charsHavePref_append (a :: as) post
      simp [this]
  | cons p ps ih => simp [charsContain, ih]

theorem goStringsContains_append (pre marker post : String) :
    goStringsContains (pre ++ marker ++ post) marker = true := by
  have h : (pre ++ marker ++ post).toList = pre.toList ++ (marker.toList ++ post.toList) := by
    simp [String.toList]
  rw [goStringsContains, h]
  exact charsContain_append _ _ _

theorem collectBucket_okResp (name : String) :
    collectBucket okResp name = Except.ok (okInfo name) := rfl

/-- C1: the claim asserts that a multi-valued sub-resource with zero listed
configuration IDs is serialized as an empty JSON array.  Counterexample: in
the run of `cw1` the bucket has zero analytics configurations, the record
field is the Go nil slice, and it is serialized as JSON null, not as an
empty array. -/
theorem C1_counterexample :
    runScanner cw1 = Except.ok [okInfo "a"] ∧
    (okInfo "a").AnalyticsConfig = [] ∧
    (encodeBucketInfo (okInfo "a")).getField "AnalyticsConfig" = some Json.null ∧
    Json.null ≠ Json.arr [] :=
  ⟨rfl, rfl, rfl, by simp⟩

/-- C1 (amended): for every bucket whose listing call for a multi-valued
sub-resource returns zero configuration IDs, the record field is the empty
(nil) sequence and no error occurs, but the field is serialized as JSON
null (absent), not as an empty JSON array. -/
theorem C1_zero_ids_field_serialized_null (r : BucketResponses) (name : String)
    (info : BucketInfo) (h : collectBucket r name = Except.ok info) :
    (r.ListBucketAnalyticsConfigurations = Except.ok ([] : List String) →
      info.AnalyticsConfig = [] ∧
      (encodeBucketInfo info).getField "AnalyticsConfig" = some Json.null) ∧
    (r.ListBucketIntelligentTieringConfigurations = Except.ok ([] : List String) →
      info.IntelligentTieringConfig = [] ∧
      (encodeBucketInfo info).getField "IntelligentTieringConfig" = some Json.null) ∧
    (r.ListBucketInventoryConfigurations = Except.ok ([] : List String) →
      info.InventoryConfig = [] ∧
      (encodeBucketInfo info).getField "InventoryConfig" = some Json.null) ∧
    (r.ListBucketMetricsConfigurations = Except.ok ([] : List String) →
      info.MetricsConfig = [] ∧
      (encodeBucketInfo info).getField "MetricsConfig" = some Json.null) := by
  obtain ⟨-, -, -, ⟨aIds, haL, haF⟩, -, -, ⟨itIds, hitL, hitF⟩, ⟨invIds, hinvL, hinvF⟩,
    -, -, -, ⟨mIds, hmL, hmF⟩, -, -, -, -, -, -, -, -⟩ := collectBucket_ok_inv h
  refine ⟨fun hz => ?_, fun hz => ?_, fun hz => ?_, fun hz => ?_⟩
  · rw [hz] at haL
    have : aIds = [] := (Except.ok.injEq _ _ ▸ haL.symm)
    subst this
    have hfield : info.AnalyticsConfig = [] := by
      have := haF
      simp [fetchConfigs] at this
      exact this
    exact ⟨hfield, by simp [encodeBucketInfo, Json.getField, List.lookup, hfield, encodeGoSlice]⟩
  · rw [hz] at hitL
    have : itIds = [] := (Except.ok.injEq _ _ ▸ hitL.symm)
    subst this
    have hfield : info.IntelligentTieringConfig = [] := by
      have := hitF
      simp [fetchConfigs] at this
      exact this
    exact ⟨hfield, by simp [encodeBucketInfo, Json.getField, List.lookup, hfield, encodeGoSlice]⟩
  · rw [hz] at hinvL
    have : invIds = [] := (Except.ok.injEq _ _ ▸ hinvL.symm)
    subst this
    have hfield : info.InventoryConfig = [] := by
      have := hinvF
      simp [fetchConfigs] at this
      exact this
    exact ⟨hfield, by simp [encodeBucketInfo, Json.getField, List.lookup, hfield, encodeGoSlice]⟩
  · rw [hz] at hmL
    have : mIds = [] := (Except.ok.injEq _ _ ▸ hmL.symm)
    subst this
    have hfield : info.MetricsConfig = [] := by
      have := hmF
      simp [fetchConfigs] at this
      exact this
    exact ⟨hfield, by simp [encodeBucketInfo, Json.getField, List.lookup, hfield, encodeGoSlice]⟩

theorem C1_zero_ids_witness :
    (okInfo "w1").AnalyticsConfig = [] ∧
    (encodeBucketInfo (okInfo "w1")).getField "AnalyticsConfig" = some Json.null :=
  (C1_zero_ids_field_serialized_null okResp "w1" (okInfo "w1") rfl).1 rfl

/-- C2: for every bucket, if each of the seven tolerated sub-resource calls
(CORS, lifecycle, ownership-controls, policy, policy-status, replication,
tagging) returns an error carrying its provider-specific absence marker,
the program does not terminate, each such record field remains absent
(`none`), and processing continues through all remaining calls, completing
the bucket's record. -/
theorem C2_absence_marker_not_fatal (r : BucketResponses) (name : String)
    (accel acl enc loc lg ntf reqPay vers : Conf)
    (aIds itIds invIds mIds : List String)
    (fa fit finv fm : String → Conf)
    (ec el eo ep eps erp et : GoErr)
    (e1 : r.GetBucketAccelerateConfiguration = Except.ok accel)
    (e2 : r.GetBucketAcl = Except.ok acl)
    (e3 : r.ListBucketAnalyticsConfigurations = Except.ok aIds)
    (g1 : ∀ i ∈ aIds, r.GetBucketAnalyticsConfiguration i = Except.ok (fa i))
    (hc : r.GetBucketCors = Except.error ec)
    (hcm : goStringsContains ec.msg "NoSuchCORSConfiguration" = true)
    (e6 : r.GetBucketEncryption = Except.ok enc)
    (e7 : r.ListBucketIntelligentTieringConfigurations = Except.ok itIds)
    (g2 : ∀ i ∈ itIds, r.GetBucketIntelligentTieringConfiguration i = Except.ok (fit i))
    (e9 : r.ListBucketInventoryConfigurations = Except.ok invIds)
    (g3 : ∀ i ∈ invIds, r.GetBucketInventoryConfiguration i = Except.ok (finv i))
    (hl : r.GetBucketLifecycleConfiguration = Except.error el)
    (hlm : goStringsContains el.msg "NoSuchLifecycleConfiguration" = true)
    (e12 : r.GetBucketLocation = Except.ok loc)
    (e13 : r.GetBucketLogging = Except.ok lg)
    (e14 : r.ListBucketMetricsConfigurations = Except.ok mIds)
    (g4 : ∀ i ∈ mIds, r.GetBucketMetricsConfiguration i = Except.ok (fm i))
    (e16 : r.GetBucketNotificationConfiguration = Except.ok ntf)
    (ho : r.GetBucketOwnershipControls = Except.error eo)
    (hom : goStringsContains eo.msg "OwnershipControlsNotFoundError" = true)
    (hp : r.GetBucketPolicy = Except.error ep)
    (hpm : goStringsContains ep.msg "NoSuchBucketPolicy" = true)
    (hps : r.GetBucketPolicyStatus = Except.error eps)
    (hpsm : goStringsContains eps.msg "NoSuchBucketPolicy" = true)
    (hr : r.GetBucketReplication = Except.error erp)
    (hrm : goStringsContains erp.msg "ReplicationConfigurationNotFoundError" = true)
    (e21 : r.GetBucketRequestPayment = Except.ok reqPay)
    (ht : r.GetBucketTagging = Except.error et)
    (htm : goStringsContains et.msg "NoSuchTagSet" = true)
    (e23 : r.GetBucketVersioning = Except.ok vers) :
    collectBucket r name = Except.ok {
      Name := name
      AccelerateConfig := some accel
      ACL := some acl
      AnalyticsConfig := aIds.map fa
      CORSConfig := none
      EncryptionConfig := some enc
      IntelligentTieringConfig := itIds.map fit
      InventoryConfig := invIds.map finv
      LifecycleConfig := none
      Location := some loc
      LoggingConfig := some lg
      MetricsConfig := mIds.map fm
      NotificationConfig := some ntf
      OwnershipControlsConfig := none
      Policy := none
      PolicyStatus := none
      ReplicationConfig := none
      RequestPaymentConfig := some reqPay
      TaggingConfig := none
      VersioningConfig := some vers
    } :=
  collectBucket_eq r name accel acl enc loc lg ntf reqPay vers
    aIds itIds invIds mIds
    (aIds.map fa) (itIds.map fit) (invIds.map finv) (mIds.map fm)
    none none none none none none none
    e1 e2 e3 (fetchConfigs_map g1)
    (by rw [hc]; exact toleratedAssign_marker hcm)
    e6 e7 (fetchConfigs_map g2) e9 (fetchConfigs_map g3)
    (by rw [hl]; exact toleratedAssign_marker hlm)
    e12 e13 e14 (fetchConfigs_map g4) e16
    (by rw [ho]; exact toleratedAssign_marker hom)
    (by rw [hp]; exact toleratedAssign_marker hpm)
    (by rw [hps]; exact toleratedAssign_marker hpsm)
    (by rw [hr]; exact toleratedAssign_marker hrm)
    e21
    (by rw [ht]; exact toleratedAssign_marker htm)
    e23

theorem C2_absence_marker_witness :
    collectBucket tolErrResp "w2" = Except.ok {
      Name := "w2"
      AccelerateConfig := some "accelerate"
      ACL := some "acl"
      AnalyticsConfig := []
      CORSConfig := none
      EncryptionConfig := some "encryption"
      IntelligentTieringConfig := []
      InventoryConfig := []
      LifecycleConfig := none
      Location := some "location"
      LoggingConfig := some "logging"
      MetricsConfig := []
      NotificationConfig := some "notifications"
      OwnershipControlsConfig := none
      Policy := none
      PolicyStatus := none
      ReplicationConfig := none
      RequestPaymentConfig := some "request-payment"
      TaggingConfig := none
      VersioningConfig := some "versioning"
    } :=
  C2_absence_marker_not_fatal tolErrResp "w2"
    "accelerate" "acl" "encryption" "location" "logging" "notifications"
    "request-payment" "versioning"
    [] [] [] []
    (fun i => "analytics-" ++ i) (fun i => "tiering-" ++ i)
    (fun i => "inventory-" ++ i) (fun i => "metrics-" ++ i)
    ⟨"NoSuchCORSConfiguration"⟩ ⟨"NoSuchLifecycleConfiguration"⟩
    ⟨"OwnershipControlsNotFoundError"⟩ ⟨"NoSuchBucketPolicy"⟩
    ⟨"NoSuchBucketPolicy"⟩ ⟨"ReplicationConfigurationNotFoundError"⟩
    ⟨"NoSuchTagSet"⟩
    rfl rfl rfl (by simp) rfl (by decide) rfl rfl (by simp) rfl (by simp)
    rfl (by decide) rfl rfl rfl (by simp) rfl rfl (by decide) rfl
    (by decide) rfl (by decide) rfl (by decide) rfl rfl (by decide) rfl

theorem collectBucket_fatal_of (r : BucketResponses) (name : String) (e : GoErr)
    (hfail :
      r.GetBucketAccelerateConfiguration = Except.error e ∨
      r.GetBucketAcl = Except.error e ∨
      r.ListBucketAnalyticsConfigurations = Except.error e ∨
      (∃ ids i0, r.ListBucketAnalyticsConfigurations = Except.ok ids ∧ i0 ∈ ids ∧
        r.GetBucketAnalyticsConfiguration i0 = Except.error e) ∨
      (r.GetBucketCors = Except.error e ∧
        goStringsContains e.msg "NoSuchCORSConfiguration" = false) ∨
      r.GetBucketEncryption = Except.error e ∨
      r.ListBucketIntelligentTieringConfigurations = Except.error e ∨
      (∃ ids i0, r.ListBucketIntelligentTieringConfigurations = Except.ok ids ∧ i0 ∈ ids ∧
        r.GetBucketIntelligentTieringConfiguration i0 = Except.error e) ∨
      r.ListBucketInventoryConfigurations = Except.error e ∨
      (∃ ids i0, r.ListBucketInventoryConfigurations = Except.ok ids ∧ i0 ∈ ids ∧
        r.GetBucketInventoryConfiguration i0 = Except.error e) ∨
      (r.GetBucketLifecycleConfiguration = Except.error e ∧
        goStringsContains e.msg "NoSuchLifecycleConfiguration" = false) ∨
      r.GetBucketLocation = Except.error e ∨
      r.GetBucketLogging = Except.error e ∨
      r.ListBucketMetricsConfigurations = Except.error e ∨
      (∃ ids i0, r.ListBucketMetricsConfigurations = Except.ok ids ∧ i0 ∈ ids ∧
        r.GetBucketMetricsConfiguration i0 = Except.error e) ∨
      r.GetBucketNotificationConfiguration = Except.error e ∨
      (r.GetBucketOwnershipControls = Except.error e ∧
        goStringsContains e.msg "OwnershipControlsNotFoundError" = false) ∨
      (r.GetBucketPolicy = Except.error e ∧
        goStringsContains e.msg "NoSuchBucketPolicy" = false) ∨
      (r.GetBucketPolicyStatus = Except.error e ∧
        goStringsContains e.msg "NoSuchBucketPolicy" = false) ∨
      (r.GetBucketReplication = Except.error e ∧
        goStringsContains e.msg "ReplicationConfigurationNotFoundError" = false) ∨
      r.GetBucketRequestPayment = Except.error e ∨
      (r.GetBucketTagging = Except.error e ∧
        goStringsContains e.msg "NoSuchTagSet" = false) ∨
      r.GetBucketVersioning = Except.error e) :
    ∀ i, collectBucket r name ≠ Except.ok i := by
  intro i hok
  obtain ⟨hName, ⟨a1, hA1, -⟩, ⟨a2, hA2, -⟩, ⟨ids1, hL1, hF1⟩, hTol1, ⟨a3, hA3, -⟩,
    ⟨ids2, hL2, hF2⟩, ⟨ids3, hL3, hF3⟩, hTol2, ⟨a4, hA4, -⟩, ⟨a5, hA5, -⟩,
    ⟨ids4, hL4, hF4⟩, ⟨a6, hA6, -⟩, hTol3, hTol4, hTol5, hTol6, ⟨a7, hA7, -⟩,
    hTol7, ⟨a8, hA8, -⟩⟩ := collectBucket_ok_inv hok
  rcases hfail with h | h | h | h | h | h | h | h | h | h | h | h | h | h | h | h | h | h | h | h | h | h | h
  · rw [h] at hA1; exact Except.noConfusion hA1
  · rw [h] at hA2; exact Except.noConfusion hA2
  · rw [h] at hL1; exact Except.noConfusion hL1
  · obtain ⟨ids, i0, hl, hm, hg⟩ := h
    rw [hl] at hL1
    obtain rfl : ids1 = ids := (Except.ok.injEq _ _ ▸ hL1).symm
    obtain ⟨c, hc⟩ := (fetchConfigs_ok_inv hF1).2 i0 hm
    rw [hg] at hc; exact Except.noConfusion hc
  · rw [h.1, toleratedAssign_fatal h.2] at hTol1; exact Except.noConfusion hTol1
  · rw [h] at hA3; exact Except.noConfusion hA3
  · rw [h] at hL2; exact Except.noConfusion hL2
  · obtain ⟨ids, i0, hl, hm, hg⟩ := h
    rw [hl] at hL2
    obtain rfl : ids2 = ids := (Except.ok.injEq _ _ ▸ hL2).symm
    obtain ⟨c, hc⟩ := (fetchConfigs_ok_inv hF2).2 i0 hm
    rw [hg] at hc; exact Except.noConfusion hc
  · rw [h] at hL3; exact Except.noConfusion hL3
  · obtain ⟨ids, i0, hl, hm, hg⟩ := h
    rw [hl] at hL3
    obtain rfl : ids3 = ids := (Except.ok.injEq _ _ ▸ hL3).symm
    obtain ⟨c, hc⟩ := (fetchConfigs_ok_inv hF3).2 i0 hm
    rw [hg] at hc; exact Except.noConfusion hc
  · rw [h.1, toleratedAssign_fatal h.2] at hTol2; exact Except.noConfusion hTol2
  · rw [h] at hA4; exact Except.noConfusion hA4
  · rw [h] at hA5; exact Except.noConfusion hA5
  · rw [h] at hL4; exact Except.noConfusion hL4
  · obtain ⟨ids, i0, hl, hm, hg⟩ := h
    rw [hl] at hL4
    obtain rfl : ids4 = ids := (Except.ok.injEq _ _ ▸ hL4).symm
    obtain ⟨c, hc⟩ := (fetchConfigs_ok_inv hF4).2 i0 hm
    rw [hg] at hc; exact Except.noConfusion hc
  · rw [h] at hA6; exact Except.noConfusion hA6
  · rw [h.1, toleratedAssign_fatal h.2] at hTol3; exact Except.noConfusion hTol3
  · rw [h.1, toleratedAssign_fatal h.2] at hTol4; exact Except.noConfusion hTol4
  · rw [h.1, toleratedAssign_fatal h.2] at hTol5; exact Except.noConfusion hTol5
  · rw [h.1, toleratedAssign_fatal h.2] at hTol6; exact Except.noConfusion hTol6
  · rw [h] at hA7; exact Except.noConfusion hA7
  · rw [h.1, toleratedAssign_fatal h.2] at hTol7; exact Except.noConfusion hTol7
  · rw [h] at hA8; exact Except.noConfusion hA8

/-- C3: in the scanner variant, any sub-resource call error that is not an
expected-absence marker for a tolerated call — and any error at all on the
always-fatal calls (accelerate, ACL, encryption, location, logging,
notification, request-payment, versioning) or on any list/get step of a
multi-valued sub-resource — terminates the whole process: the run ends in
the fatal outcome and no Report is produced. -/
theorem C3_unexpected_error_fatal (w : World) (bs : List String) (b : String)
    (e : GoErr)
    (h1 : w.loadConfigOk = Except.ok ())
    (h2 : w.client.ListBuckets = Except.ok bs)
    (hmem : b ∈ bs)
    (hexc : isExcluded w.excludedBuckets b = false)
(hfail :
      (w.client.perBucket b).GetBucketAccelerateConfiguration = Except.error e ∨
      (w.client.perBucket b).GetBucketAcl = Except.error e ∨
      (w.client.perBucket b).ListBucketAnalyticsConfigurations = Except.error e ∨
      (∃ ids i0, (w.client.perBucket b).ListBucketAnalyticsConfigurations = Except.ok ids ∧ i0 ∈ ids ∧
        (w.client.perBucket b).GetBucketAnalyticsConfiguration i0 = Except.error e) ∨
      ((w.client.perBucket b).GetBucketCors = Except.error e ∧
        goStringsContains e.msg "NoSuchCORSConfiguration" = false) ∨
      (w.client.perBucket b).GetBucketEncryption = Except.error e ∨
      (w.client.perBucket b).ListBucketIntelligentTieringConfigurations = Except.error e ∨
      (∃ ids i0, (w.client.perBucket b).ListBucketIntelligentTieringConfigurations = Except.ok ids ∧ i0 ∈ ids ∧
        (w.client.perBucket b).GetBucketIntelligentTieringConfiguration i0 = Except.error e) ∨
      (w.client.perBucket b).ListBucketInventoryConfigurations = Except.error e ∨
      (∃ ids i0, (w.client.perBucket b).ListBucketInventoryConfigurations = Except.ok ids ∧ i0 ∈ ids ∧
        (w.client.perBucket b).GetBucketInventoryConfiguration i0 = Except.error e) ∨
      ((w.client.perBucket b).GetBucketLifecycleConfiguration = Except.error e ∧
        goStringsContains e.msg "NoSuchLifecycleConfiguration" = false) ∨
      (w.client.perBucket b).GetBucketLocation = Except.error e ∨
      (w.client.perBucket b).GetBucketLogging = Except.error e ∨
      (w.client.perBucket b).ListBucketMetricsConfigurations = Except.error e ∨
      (∃ ids i0, (w.client.perBucket b).ListBucketMetricsConfigurations = Except.ok ids ∧ i0 ∈ ids ∧
        (w.client.perBucket b).GetBucketMetricsConfiguration i0 = Except.error e) ∨
      (w.client.perBucket b).GetBucketNotificationConfiguration = Except.error e ∨
      ((w.client.perBucket b).GetBucketOwnershipControls = Except.error e ∧
        goStringsContains e.msg "OwnershipControlsNotFoundError" = false) ∨
      ((w.client.perBucket b).GetBucketPolicy = Except.error e ∧
        goStringsContains e.msg "NoSuchBucketPolicy" = false) ∨
      ((w.client.perBucket b).GetBucketPolicyStatus = Except.error e ∧
        goStringsContains e.msg "NoSuchBucketPolicy" = false) ∨
      ((w.client.perBucket b).GetBucketReplication = Except.error e ∧
        goStringsContains e.msg "ReplicationConfigurationNotFoundError" = false) ∨
      (w.client.perBucket b).GetBucketRequestPayment = Except.error e ∨
      ((w.client.perBucket b).GetBucketTagging = Except.error e ∧
        goStringsContains e.msg "NoSuchTagSet" = false) ∨
      (w.client.perBucket b).GetBucketVersioning = Except.error e)  :
    ∃ e2, runScanner w = Except.error e2 := by
  have hfatal := collectBucket_fatal_of (w.client.perBucket b) b e hfail
  obtain ⟨e2, he2⟩ :=
    scanBuckets_err_of_mem w.client w.excludedBuckets bs b hmem hexc hfatal
  exact ⟨e2, by simp [runScanner, h1, h2, he2, okBind, errBind]⟩

theorem C3_unexpected_error_witness : ∃ e2, runScanner cwAcl = Except.error e2 :=
  C3_unexpected_error_fatal cwAcl ["a"] "a" ⟨"AccessDenied"⟩ rfl rfl
    (by decide) rfl (Or.inr (Or.inl rfl))

/-- C4: for every bucket and every multi-valued sub-resource, if the listing
call returns N configuration IDs and every per-ID fetch succeeds, the
record's field is the sequence of exactly N per-ID fetch results, in the
order in which the listing call returned the IDs. -/
theorem C4_multivalued_order_and_count (r : BucketResponses) (name : String)
    (info : BucketInfo)
    (aIds itIds invIds mIds : List String)
    (fa fit finv fm : String → Conf)
    (h : collectBucket r name = Except.ok info)
    (ha : r.ListBucketAnalyticsConfigurations = Except.ok aIds)
    (ga : ∀ i ∈ aIds, r.GetBucketAnalyticsConfiguration i = Except.ok (fa i))
    (hit : r.ListBucketIntelligentTieringConfigurations = Except.ok itIds)
    (git : ∀ i ∈ itIds, r.GetBucketIntelligentTieringConfiguration i = Except.ok (fit i))
    (hinv : r.ListBucketInventoryConfigurations = Except.ok invIds)
    (ginv : ∀ i ∈ invIds, r.GetBucketInventoryConfiguration i = Except.ok (finv i))
    (hm : r.ListBucketMetricsConfigurations = Except.ok mIds)
    (gm : ∀ i ∈ mIds, r.GetBucketMetricsConfiguration i = Except.ok (fm i)) :
    (info.AnalyticsConfig = aIds.map fa ∧
      info.AnalyticsConfig.length = aIds.length) ∧
    (info.IntelligentTieringConfig = itIds.map fit ∧
      info.IntelligentTieringConfig.length = itIds.length) ∧
    (info.InventoryConfig = invIds.map finv ∧
      info.InventoryConfig.length = invIds.length) ∧
    (info.MetricsConfig = mIds.map fm ∧
      info.MetricsConfig.length = mIds.length) := by
  obtain ⟨-, -, -, ⟨ids1, hL1, hF1⟩, -, -, ⟨ids2, hL2, hF2⟩, ⟨ids3, hL3, hF3⟩,
    -, -, -, ⟨ids4, hL4, hF4⟩, -, -, -, -, -, -, -, -⟩ := collectBucket_ok_inv h
  rw [ha] at hL1
  obtain rfl : ids1 = aIds := (Except.ok.injEq _ _ ▸ hL1).symm
  rw [hit] at hL2
  obtain rfl : ids2 = itIds := (Except.ok.injEq _ _ ▸ hL2).symm
  rw [hinv] at hL3
  obtain rfl : ids3 = invIds := (Except.ok.injEq _ _ ▸ hL3).symm
  rw [hm] at hL4
  obtain rfl : ids4 = mIds := (Except.ok.injEq _ _ ▸ hL4).symm
  rw [fetchConfigs_map ga] at hF1
  rw [fetchConfigs_map git] at hF2
  rw [fetchConfigs_map ginv] at hF3
  rw [fetchConfigs_map gm] at hF4
  have h1 := (Except.ok.injEq _ _ ▸ hF1).symm
  have h2 := (Except.ok.injEq _ _ ▸ hF2).symm
  have h3 := (Except.ok.injEq _ _ ▸ hF3).symm
  have h4 := (Except.ok.injEq _ _ ▸ hF4).symm
  refine ⟨⟨h1, ?_⟩, ⟨h2, ?_⟩, ⟨h3, ?_⟩, ⟨h4, ?_⟩⟩ <;> simp [h1, h2, h3, h4]

theorem C4_multivalued_witness :
    (multiInfo.AnalyticsConfig = ["analytics-a1", "analytics-a2"] ∧
      multiInfo.AnalyticsConfig.length = 2) ∧
    (multiInfo.IntelligentTieringConfig = ["tiering-t1"] ∧
      multiInfo.IntelligentTieringConfig.length = 1) ∧
    (multiInfo.InventoryConfig = ["inventory-inv1", "inventory-inv2"] ∧
      multiInfo.InventoryConfig.length = 2) ∧
    (multiInfo.MetricsConfig = ["metrics-m1", "metrics-m2", "metrics-m3"] ∧
      multiInfo.MetricsConfig.length = 3) :=
  C4_multivalued_order_and_count multiResp "w4" multiInfo
    ["a1", "a2"] ["t1"] ["inv1", "inv2"] ["m1", "m2", "m3"]
    (fun i => "analytics-" ++ i) (fun i => "tiering-" ++ i)
    (fun i => "inventory-" ++ i) (fun i => "metrics-" ++ i)
    rfl rfl (fun _ _ => rfl) rfl (fun _ _ => rfl) rfl (fun _ _ => rfl)
    rfl (fun _ _ => rfl)

/-- C5: every listed bucket whose name exactly matches an entry of the
comma-separated exclusion list is skipped before any sub-resource call (the
run does not depend on that bucket's responses) and has no record in the
Report; every other listed bucket is processed and, absent errors, appears
in the Report, in listing order. -/
theorem C5_exclusion_filter (w : World) (bs : List String)
    (h1 : w.loadConfigOk = Except.ok ())
    (h2 : w.client.ListBuckets = Except.ok bs)
    (h4 : w.createFileOk = Except.ok ())
    (hok : ∀ b ∈ bs, isExcluded w.excludedBuckets b = false →
      ∃ i, collectBucket (w.client.perBucket b) b = Except.ok i) :
    ∃ infos, runScanner w = Except.ok infos ∧
      infos.map BucketInfo.Name = (bs.filter fun b => !(isExcluded w.excludedBuckets b)) ∧
      (∀ b ∈ bs, isExcluded w.excludedBuckets b = true →
        b ∉ infos.map BucketInfo.Name) ∧
      (∀ c2 : S3Client, c2.ListBuckets = w.client.ListBuckets →
        (∀ b ∈ bs, isExcluded w.excludedBuckets b = false →
          c2.perBucket b = w.client.perBucket b) →
        runScanner { w with client := c2 } = runScanner w) := by
  obtain ⟨infos, hscan, hnames⟩ := scanBuckets_ok_of w.client w.excludedBuckets bs hok
  refine ⟨infos, runScanner_eq w bs infos h1 h2 hscan h4, hnames, ?_, ?_⟩
  · intro b hb hex hmemnames
    rw [hnames] at hmemnames
    have := (List.mem_filter.mp hmemnames).2
    rw [hex] at this
    simp at this
  · intro c2 hlist hsame
    have hscan2 : scanBuckets c2 w.excludedBuckets bs =
        scanBuckets w.client w.excludedBuckets bs :=
      scanBuckets_insensitive w.client c2 w.excludedBuckets bs hsame
    rw [runScanner_eq w bs infos h1 h2 hscan h4]
    exact runScanner_eq { w with client := c2 } bs infos h1 (hlist.trans h2)
      (hscan2.trans hscan) h4

theorem C5_exclusion_witness :
    ∃ infos, runScanner cw5 = Except.ok infos ∧
      infos.map BucketInfo.Name = ["a", "c"] := by
  obtain ⟨infos, hrun, hnames, -, -⟩ :=
    C5_exclusion_filter cw5 ["a", "b", "c"] rfl rfl rfl
      (fun b _ _ => ⟨okInfo b, collectBucket_okResp b⟩)
  exact ⟨infos, hrun, by rw [hnames]; rfl⟩

theorem isExcluded_empty_env (b : String) (hb : ¬ b = "") :
    isExcluded "" b = false := by
  have h : goSplitComma "" = [""] := rfl
  rw [isExcluded, h]
  cases hbe : (b == "") with
  | true => exact absurd (eq_of_beq hbe) hb
  | false => simp [List.contains, List.elem, hbe]

/-- C6: the claim asserts that with an absent/empty exclusion value no
listed bucket is excluded, for every bucket name including the empty
string.  Counterexample: splitting the empty exclusion value on commas
yields a single empty entry, so in the run of `cw6` the listed bucket named
by the empty string is excluded and the Report is empty. -/
theorem C6_counterexample :
    isExcluded "" "" = true ∧ runScanner cw6 = Except.ok [] :=
  ⟨rfl, rfl⟩

/-- C6 (amended): with an absent or empty exclusion-list value, every
listed bucket with a non-empty name is processed and, absent errors,
appears in the Report in listing order; only a bucket named by the empty
string would be excluded, because splitting the empty value yields one
empty entry. -/
theorem C6_empty_exclusion_amended (w : World) (bs : List String)
    (h1 : w.loadConfigOk = Except.ok ())
    (henv : w.excludedBuckets = "")
    (h2 : w.client.ListBuckets = Except.ok bs)
    (h4 : w.createFileOk = Except.ok ())
    (hne : ∀ b ∈ bs, ¬ b = "")
    (hok : ∀ b ∈ bs, ∃ i, collectBucket (w.client.perBucket b) b = Except.ok i) :
    ∃ infos, runScanner w = Except.ok infos ∧
      infos.map BucketInfo.Name = bs := by
  have hexf : ∀ b ∈ bs, isExcluded w.excludedBuckets b = false := by
    intro b hb
    rw [henv]
    exact isExcluded_empty_env b (hne b hb)
  obtain ⟨infos, hscan, hnames⟩ :=
    scanBuckets_ok_of w.client w.excludedBuckets bs (fun b hb _ => hok b hb)
  refine ⟨infos, runScanner_eq w bs infos h1 h2 hscan h4, ?_⟩
  rw [hnames]
  apply List.filter_eq_self.mpr
  intro b hb
  simp [hexf b hb]

theorem C6_empty_exclusion_witness :
    ∃ infos, runScanner cw1 = Except.ok infos ∧
      infos.map BucketInfo.Name = ["a"] :=
  C6_empty_exclusion_amended cw1 ["a"] rfl rfl rfl rfl (by decide)
    (fun b _ => ⟨okInfo b, collectBucket_okResp b⟩)

/-- C7: the output file is only written by the final encode step, after all
buckets are collected; a fatal termination before it — in particular a
failed bucket-listing call — produces the fatal outcome (non-zero exit),
yields no output bytes, and never reaches the output-file creation step
(the run is independent of it). -/
theorem C7_list_failure_leaves_no_output (w : World) (e : GoErr)
    (h1 : w.loadConfigOk = Except.ok ())
    (h2 : w.client.ListBuckets = Except.error e) :
    runScanner w = Except.error e ∧
    runScannerOutput w = Except.error e ∧
    (∀ c, runScanner { w with createFileOk := c } = Except.error e) := by
  have hrun : runScanner w = Except.error e := by
    simp [runScanner, h1, h2, okBind, errBind]
  refine ⟨hrun, ?_, ?_⟩
  · rw [runScannerOutput, hrun]
    rfl
  · intro c
    simp [runScanner, h1, h2, okBind, errBind]

theorem C7_list_failure_witness :
    runScanner cwList = Except.error ⟨"AccessDenied: ListBuckets"⟩ ∧
    runScannerOutput cwList = Except.error ⟨"AccessDenied: ListBuckets"⟩ :=
  ⟨(C7_list_failure_leaves_no_output cwList ⟨"AccessDenied: ListBuckets"⟩ rfl rfl).1,
   (C7_list_failure_leaves_no_output cwList ⟨"AccessDenied: ListBuckets"⟩ rfl rfl).2.1⟩

/-- C8: JSON-encoding the Report and decoding the result back yields a
structurally identical sequence of records — the same bucket names, the
same present/absent fields, the same ordering. -/
theorem C8_report_roundtrip (infos : List BucketInfo) :
    decodeReport (encodeReport infos) = some infos :=
  decodeRecordList_map infos

/-- C9: the collector is deterministic — two runs against identical
provider responses and an identical exclusion value produce byte-for-byte
identical rendered JSON output. -/
theorem C9_deterministic (w1 w2 : World)
    (h1 : w1.loadConfigOk = w2.loadConfigOk)
    (h2 : w1.client = w2.client)
    (h3 : w1.excludedBuckets = w2.excludedBuckets)
    (h4 : w1.createFileOk = w2.createFileOk) :
    runScannerOutput w1 = runScannerOutput w2 := by
  have hw : w1 = w2 := by
    cases w1
    cases w2
    simp_all
  rw [hw]

theorem C9_deterministic_witness :
    runScannerOutput cw5 = runScannerOutput cw5 :=
  C9_deterministic cw5 cw5 rfl rfl rfl rfl

/-- C10: expected-absence detection is a substring test on the error's
message text, not a structural code check — any error whose message
contains the marker anywhere is treated as absence — and the policy-status
call reuses the policy marker NoSuchBucketPolicy. -/
theorem C10_substring_marker_detection :
    (∀ (pre post needle : List Char),
      charsContain needle (pre ++ (needle ++ post)) = true) ∧
    (∀ (e : GoErr) (marker : String), goStringsContains e.msg marker = true →
      toleratedAssign (Except.error e) marker = Except.ok none) ∧
    (∀ (pre post marker : String),
      toleratedAssign (Except.error ⟨pre ++ marker ++ post⟩) marker = Except.ok none) ∧
    (∀ (r : BucketResponses) (name : String) (info : BucketInfo),
      collectBucket r name = Except.ok info →
      toleratedAssign r.GetBucketCors "NoSuchCORSConfiguration" =
        Except.ok info.CORSConfig ∧
      toleratedAssign r.GetBucketLifecycleConfiguration "NoSuchLifecycleConfiguration" =
        Except.ok info.LifecycleConfig ∧
      toleratedAssign r.GetBucketOwnershipControls "OwnershipControlsNotFoundError" =
        Except.ok info.OwnershipControlsConfig ∧
      toleratedAssign r.GetBucketPolicy "NoSuchBucketPolicy" =
        Except.ok info.Policy ∧
      toleratedAssign r.GetBucketPolicyStatus "NoSuchBucketPolicy" =
        Except.ok info.PolicyStatus ∧
      toleratedAssign r.GetBucketReplication "ReplicationConfigurationNotFoundError" =
        Except.ok info.ReplicationConfig ∧
      toleratedAssign r.GetBucketTagging "NoSuchTagSet" =
        Except.ok info.TaggingConfig) := by
  refine ⟨fun pre post needle => charsContain_append pre needle post,
    fun e marker h => toleratedAssign_marker h,
    fun pre post marker => toleratedAssign_marker (goStringsContains_append pre marker post),
    ?_⟩
  intro r name info h
  obtain ⟨-, -, -, -, hTol1, -, -, -, hTol2, -, -, -, -, hTol3, hTol4, hTol5,
    hTol6, -, hTol7, -⟩ := collectBucket_ok_inv h
  exact ⟨hTol1, hTol2, hTol3, hTol4, hTol5, hTol6, hTol7⟩

theorem C10_substring_marker_witness :
    toleratedAssign
      (Except.error ⟨"dial tcp: connection reset by peer NoSuchTagSet"⟩)
      "NoSuchTagSet" = Except.ok none ∧
    toleratedAssign psErrResp.GetBucketPolicyStatus "NoSuchBucketPolicy" =
      Except.ok psInfo.PolicyStatus :=
  ⟨C10_substring_marker_detection.2.1
      ⟨"dial tcp: connection reset by peer NoSuchTagSet"⟩ "NoSuchTagSet" (by decide),
   (C10_substring_marker_detection.2.2.2 psErrResp "w10" psInfo rfl).2.2.2.2.1⟩

end S3Scan
